import Mathlib

/-!
Shallow embedding of the comparison-and-classification engine of
`generic_bug_detector.py` (class `GenericBugDetector`), together with proofs
of the behavioural properties claimed for it.  Similarity scores, difference
percentages and contour areas are modelled as rationals; the numeric vision
primitives (structural similarity, pixel difference percentage, contour
extraction, edge-map divergence) are treated as an oracle parameter, since the
detector only branches on their outputs.
-/

namespace GenericBugDetector

/-- An in-memory raster image: pixel dimensions, channel count, and an
abstract content tag standing for the pixel data. -/
structure Img where
  height : Nat
  width : Nat
  channels : Nat
  data : Nat
deriving DecidableEq, Repr

/-- Shape of an image as numpy reports it: (height, width, channels). -/
def shape (img : Img) : Nat × Nat × Nat := (img.height, img.width, img.channels)

/-- Resampling an image to the given width and height (cv2.resize): the
dimensions change, the channel count and the content tag are kept. -/
def resize (img : Img) (w h : Nat) : Img := { img with width := w, height := h }

/-- Dimension reconciliation step of compare_images (lines 82-83): when the
shapes differ, the current image is resized to the reference dimensions; the
reference image is untouched. -/
def normalize (ref cur : Img) : Img × Img :=
  if shape ref ≠ shape cur then (ref, resize cur ref.width ref.height) else (ref, cur)

/-- A difference contour as produced by cv2.findContours, abstracted to the
data the detector reads from it: its area (cv2.contourArea) and its bounding
rectangle (cv2.boundingRect). -/
structure Contour where
  area : ℚ
  x : ℤ
  y : ℤ
  w : ℤ
  h : ℤ
deriving DecidableEq, Repr

/-- The configuration fields read by the comparison engine.  The severity
table is an ordered association list, mirroring the insertion order of the
python dict in _default_config. -/
structure Config where
  threshold : ℚ
  min_contour_area : ℚ
  severity_levels : List (String × ℚ)
deriving DecidableEq, Repr

/-- Default severity table of _default_config, in dict insertion order. -/
def default_severity_levels : List (String × ℚ) :=
  [("critical", 7/10), ("high", 8/10), ("medium", 9/10), ("low", 95/100)]

/-- Defaults of _default_config (the fields the engine reads). -/
def defaultConfig : Config :=
  { threshold := 95/100, min_contour_area := 100,
    severity_levels := default_severity_levels }

/-- _determine_severity: scan the severity table in order and return the first
label whose threshold the similarity is strictly below, else "none". -/
def determine_severity (levels : List (String × ℚ)) (similarity : ℚ) : String :=
  match levels with
  | [] => "none"
  | (severity, threshold) :: rest =>
      if similarity < threshold then severity else determine_severity rest similarity

/-- Numeric rank of a severity label, most severe highest; used to state
monotonicity of the severity policy. -/
def sevRank : String → Nat
  | "critical" => 4
  | "high" => 3
  | "medium" => 2
  | "low" => 1
  | _ => 0

/-- Modelled from the spec: the ordered-threshold table of section 4.3 written
as explicit nested conditionals, for comparison with determine_severity. -/
def severityTableSpec (s : ℚ) : String :=
  if s < 7/10 then "critical"
  else if s < 8/10 then "high"
  else if s < 9/10 then "medium"
  else if s < 95/100 then "low"
  else "none"

/-- Difference-region record built from a contour in _analyze_differences:
area, bounding box, and the bounding-box midpoint as center. -/
structure DiffRegion where
  area : ℚ
  bounding_box : ℤ × ℤ × ℤ × ℤ
  center : ℤ × ℤ
deriving DecidableEq, Repr

/-- Region construction loop body of _analyze_differences (lines 153-160). -/
def mkRegion (c : Contour) : DiffRegion :=
  { area := c.area, bounding_box := (c.x, c.y, c.w, c.h),
    center := (c.x + c.w / 2, c.y + c.h / 2) }

/-- Insert a region into a list already sorted by descending area, stably. -/
def insertReg (r : DiffRegion) : List DiffRegion → List DiffRegion
  | [] => [r]
  | x :: xs => if r.area > x.area then r :: x :: xs else x :: insertReg r xs

/-- diff_regions.sort with key area and reverse=True: stable descending
insertion sort. -/
def sortRegions : List DiffRegion → List DiffRegion
  | [] => []
  | r :: rs => insertReg r (sortRegions rs)

/-- Bug categories produced by _analyze_differences. -/
inductive BugType where
  | layout_shift
  | multiple_differences
  | color_contrast_issue
  | text_rendering_issue
deriving DecidableEq, Repr

/-- A classified bug finding; optional numeric payload fields mirror the keys
each branch of _analyze_differences puts in its dict. -/
structure Bug where
  type : BugType
  severity : String
  description : String
  area : Option ℚ
  region_count : Option Nat
  location : Option (ℤ × ℤ)
  similarity : Option ℚ
deriving DecidableEq, Repr

/-- layout_shift finding (largest area > 10000 branch, lines 170-177). -/
def layout_shift_bug (sev : String) (r : DiffRegion) : Bug :=
  { type := .layout_shift, severity := sev,
    description := "Major layout shift detected. Largest difference area: " ++
      toString r.area ++ " pixels",
    area := some r.area, region_count := none, location := some r.center,
    similarity := none }

/-- multiple_differences finding (more than 5 regions branch, lines 180-186). -/
def multiple_differences_bug (sev : String) (n : Nat) : Bug :=
  { type := .multiple_differences, severity := sev,
    description := "Multiple visual differences detected (" ++ toString n ++ " regions)",
    area := none, region_count := some n, location := none, similarity := none }

/-- color_contrast_issue finding (similarity > 0.8 and fewer than 3 regions,
lines 189-195); severity is the fixed string "low". -/
def color_contrast_bug (sim : ℚ) : Bug :=
  { type := .color_contrast_issue, severity := "low",
    description := "Minor color or contrast differences detected",
    area := none, region_count := none, location := none, similarity := some sim }

/-- text_rendering_issue finding (lines 198-203); severity is the fixed
string "medium". -/
def text_rendering_bug : Bug :=
  { type := .text_rendering_issue, severity := "medium",
    description := "Text rendering differences detected",
    area := none, region_count := none, location := none, similarity := none }

/-- Numeric vision primitives (ssim over grayscales, absdiff pixel
percentage, contour extraction from the thresholded difference, Canny
edge-map divergence percentage), treated as an oracle: the detector only
branches on their outputs. -/
structure Vision where
  ssim : Img → Img → ℚ
  diffPercentage : Img → Img → ℚ
  findContours : Img → Img → List Contour
  edgeDiffPercentage : Img → Img → ℚ

/-- _detect_text_issues: Canny edge maps of both images are differenced and
the result is true when the edge difference percentage exceeds 5. -/
def detect_text_issues (V : Vision) (ref cur : Img) : Bool :=
  decide (5 < V.edgeDiffPercentage ref cur)

/-- _analyze_differences: the classification rules.  They are entered only
when similarity is below the overall threshold, and the four category checks
all sit inside the `len(diff_regions) > 0` test of line 166. -/
def analyze_differences (cfg : Config) (V : Vision) (ref cur : Img)
    (contours : List Contour) (similarity : ℚ) : List Bug :=
  if similarity < cfg.threshold then
    match sortRegions (contours.map mkRegion) with
    | [] => []
    | largest :: rest =>
        (if largest.area > 10000 then
          [layout_shift_bug (determine_severity cfg.severity_levels similarity) largest]
         else []) ++
        (if (largest :: rest).length > 5 then
          [multiple_differences_bug (determine_severity cfg.severity_levels similarity)
            (largest :: rest).length]
         else []) ++
        (if 8/10 < similarity ∧ (largest :: rest).length < 3 then
          [color_contrast_bug similarity]
         else []) ++
        (if detect_text_issues V ref cur then [text_rendering_bug] else [])
  else []

/-- Contour filtering of compare_images line 101: keep the contours whose
area strictly exceeds min_contour_area. -/
def significant_contours (min_area : ℚ) (contours : List Contour) : List Contour :=
  contours.filter (fun c => decide (min_area < c.area))

/-- The successful comparison record assembled at lines 113-131, restricted to
the fields the engine computes (the image_dimensions nest is flattened into
four fields; paths and timestamp are I/O metadata carried through verbatim). -/
structure CompSuccess where
  test_name : String
  similarity : ℚ
  difference_percentage : ℚ
  contours_count : Nat
  total_contours : Nat
  severity : String
  bugs_found : Bool
  bugs : List Bug
  ref_width : Nat
  ref_height : Nat
  cur_width : Nat
  cur_height : Nat
  contours : List Contour
deriving DecidableEq, Repr

/-- Result of one comparison: either an error dict or a success record. -/
inductive CompResult where
  | error (msg : String)
  | success (r : CompSuccess)
deriving DecidableEq, Repr

/-- Body of the try-block of compare_images on two loaded images: capture the
original dimensions, reconcile shapes, compute similarity, difference
percentage and contours, filter by area, grade severity, and classify. -/
def mkSuccess (cfg : Config) (V : Vision) (ref cur0 : Img)
    (test_name : String) : CompSuccess :=
  let cur := (normalize ref cur0).2
  let similarity := V.ssim ref cur
  let diff_percentage := V.diffPercentage ref cur
  let contours := V.findContours ref cur
  let significant := significant_contours cfg.min_contour_area contours
  let severity := determine_severity cfg.severity_levels similarity
  let bugs := analyze_differences cfg V ref cur significant similarity
  { test_name := test_name, similarity := similarity,
    difference_percentage := diff_percentage,
    contours_count := significant.length, total_contours := contours.length,
    severity := severity, bugs_found := decide (bugs.length > 0), bugs := bugs,
    ref_width := ref.width, ref_height := ref.height,
    cur_width := cur0.width, cur_height := cur0.height,
    contours := significant }

/-- The outcome of path checks and image decoding for one comparison call;
abstracts os.path.exists and cv2.imread. -/
inductive LoadResult where
  | missingRef (path : String)
  | missingCur (path : String)
  | decodeFail
  | ok (ref cur : Img)
deriving DecidableEq, Repr

/-- compare_images: existence and decode failures become error values; a
loaded pair is processed by the numeric pipeline. -/
def compare_images (cfg : Config) (V : Vision) (input : LoadResult)
    (test_name : String) : CompResult :=
  match input with
  | .missingRef p => .error ("Reference image not found: " ++ p)
  | .missingCur p => .error ("Current image not found: " ++ p)
  | .decodeFail => .error "Could not load one or both images"
  | .ok ref cur => .success (mkSuccess cfg V ref cur test_name)

/-- One entry of the image_pairs list given to compare_batch: what its two
paths load to, and its test name. -/
structure PairSpec where
  input : LoadResult
  name : String
deriving DecidableEq, Repr

/-- compare_batch: loop over the pairs in order, appending one result per
pair; an error result is recorded in place and the loop continues. -/
def compare_batch (cfg : Config) (V : Vision) (pairs : List PairSpec) : List CompResult :=
  pairs.map (fun p => compare_images cfg V p.input p.name)

/-- result.get of the similarity field with default 0, as the list
comprehension of _create_summary_worksheet line 393 does. -/
def get_similarity (r : CompResult) : ℚ :=
  match r with
  | .success s => s.similarity
  | .error _ => 0

/-- result.get of the severity field with default "none" (lines 390, 538). -/
def get_severity (r : CompResult) : String :=
  match r with
  | .success s => s.severity
  | .error _ => "none"

/-- np.mean over the similarity defaults, as computed by
_create_summary_worksheet line 393. -/
def avg_similarity (results : List CompResult) : ℚ :=
  (results.map get_similarity).sum / results.length

/-- One severity_counts bucket of _create_summary_worksheet lines 388-391 and
_create_statistics_worksheet lines 534-539: how many results report the given
severity label (errored results fall in the "none" bucket via the default). -/
def severity_count (results : List CompResult) (sev : String) : Nat :=
  (results.filter (fun r => get_severity r == sev)).length

/-- Similarity scores of the non-errored results. -/
def success_similarities (results : List CompResult) : List ℚ :=
  results.filterMap (fun r =>
    match r with
    | .success s => some s.similarity
    | .error _ => none)

/-- Modelled from the spec: mean similarity over the non-errored results
only, as section 7 words the exclusion of failed comparisons. -/
def spec_avg_similarity (results : List CompResult) : ℚ :=
  (success_similarities results).sum / (success_similarities results).length

/-- Modelled from the spec: severity histogram bucket counted over the
non-errored results only. -/
def spec_severity_count (results : List CompResult) (sev : String) : Nat :=
  ((results.filterMap (fun r =>
    match r with
    | .success s => some s.severity
    | .error _ => none)).filter (fun s => s == sev)).length

/-- Whether a result is an error dict. -/
def isError : CompResult → Bool
  | .error _ => true
  | .success _ => false

/-- Constant oracle used for concrete evaluations: moderate similarity, no
contours, no edge divergence. -/
def sampleVision : Vision :=
  { ssim := fun _ _ => 1/2, diffPercentage := fun _ _ => 10,
    findContours := fun _ _ => [], edgeDiffPercentage := fun _ _ => 0 }

/-- Oracle whose edge divergence exceeds the 5 percent threshold. -/
def edgeVision : Vision :=
  { ssim := fun _ _ => 1/2, diffPercentage := fun _ _ => 10,
    findContours := fun _ _ => [], edgeDiffPercentage := fun _ _ => 10 }

/-- A contour large enough to trip the layout_shift rule. -/
def bigContour : Contour := { area := 20000, x := 0, y := 0, w := 200, h := 100 }

/-- A contour below the default minimum area. -/
def smallContour : Contour := { area := 50, x := 1, y := 1, w := 10, h := 5 }

/-- Oracle producing one large and one small contour. -/
def contourVision : Vision :=
  { ssim := fun _ _ => 1/2, diffPercentage := fun _ _ => 10,
    findContours := fun _ _ => [bigContour, smallContour],
    edgeDiffPercentage := fun _ _ => 0 }

/-- A concrete 4 by 3 three-channel image. -/
def img1 : Img := { height := 3, width := 4, channels := 3, data := 0 }

/-- A concrete 6 by 5 three-channel image, differing from img1 in shape. -/
def img2 : Img := { height := 5, width := 6, channels := 3, data := 1 }

/-- Concrete successful comparison of img1 with itself under sampleVision. -/
def sampleSuccess : CompSuccess := mkSuccess defaultConfig sampleVision img1 img1 "t1"

/-- Concrete successful comparison that retains one significant contour. -/
def contourSuccess : CompSuccess := mkSuccess defaultConfig contourVision img1 img1 "t2"

/-- Concrete successful comparison whose two images differ in shape. -/
def resizeSuccess : CompSuccess := mkSuccess defaultConfig sampleVision img1 img2 "t3"

/-- A result list holding one success and one error, for aggregate checks. -/
def cexResults : List CompResult :=
  [CompResult.success sampleSuccess,
   CompResult.error "Reference image not found: missing.png"]

/-- The batch given to the batch-order checks: a good pair, a pair with a
missing reference file, and another good pair. -/
def cexPairs : List PairSpec :=
  [{ input := .ok img1 img1, name := "a" },
   { input := .missingRef "missing.png", name := "b" },
   { input := .ok img1 img2, name := "c" }]

/-- Inserting a region grows the list length by one. -/
lemma length_insertReg (r : DiffRegion) (l : List DiffRegion) :
    (insertReg r l).length = l.length + 1 := by
  induction l with
  | nil => rfl
  | cons x xs ih =>
      simp only [insertReg]
      split
      · simp
      · simp [ih]

/-- Sorting the regions preserves the list length. -/
lemma length_sortRegions (l : List DiffRegion) : (sortRegions l).length = l.length := by
  induction l with
  | nil => rfl
  | cons r rs ih => simp [sortRegions, length_insertReg, ih]

/-- Per-category severity of every finding _analyze_differences can emit:
layout_shift and multiple_differences carry the policy severity of the
similarity score, color_contrast_issue is fixed "low", text_rendering_issue
is fixed "medium". -/
lemma analyze_severities (cfg : Config) (V : Vision) (ref cur : Img)
    (contours : List Contour) (sim : ℚ) (b : Bug)
    (hb : b ∈ analyze_differences cfg V ref cur contours sim) :
    ((b.type = BugType.layout_shift ∨ b.type = BugType.multiple_differences) →
        b.severity = determine_severity cfg.severity_levels sim) ∧
    (b.type = BugType.color_contrast_issue → b.severity = "low") ∧
    (b.type = BugType.text_rendering_issue → b.severity = "medium") := by
  unfold analyze_differences at hb
  split at hb
  · split at hb
    · simp at hb
    · simp only [List.mem_append] at hb
      rcases hb with ((hb | hb) | hb) | hb <;>
        · split at hb <;>
            simp_all [layout_shift_bug, multiple_differences_bug,
              color_contrast_bug, text_rendering_bug]
  · simp at hb

/-- The bugs_found flag is the emptiness test on the bug list. -/
lemma decide_length_pos (l : List Bug) : (decide (l.length > 0) = true) ↔ l ≠ [] := by
  simp [List.length_pos]

/-- The similarity sum the summary worksheet feeds to np.mean equals the sum
over the non-errored results, because every errored result contributes the
default value 0. -/
lemma map_get_similarity_sum (results : List CompResult) :
    (results.map get_similarity).sum = (success_similarities results).sum := by
  induction results with
  | nil => rfl
  | cons r rs ih =>
      cases r <;> simp_all [get_similarity, success_similarities, List.filterMap_cons]

/-- A severity bucket counts the matching non-errored results, plus every
errored result when the bucket is "none". -/
lemma severity_count_split (results : List CompResult) (sev : String) :
    severity_count results sev =
      spec_severity_count results sev +
        (if sev = "none" then (results.filter isError).length else 0) := by
  induction results with
  | nil => simp [severity_count, spec_severity_count]
  | cons r rs ih =>
      cases r with
      | error m =>
          by_cases hs : sev = "none"
          · subst hs
            simp [severity_count, spec_severity_count, get_severity, isError,
              List.filter_cons, List.filterMap_cons] at ih ⊢
            omega
          · have hs2 : ¬ ("none" = sev) := fun h => hs h.symm
            simp [severity_count, spec_severity_count, get_severity, isError,
              List.filter_cons, List.filterMap_cons, hs, hs2] at ih ⊢
            omega
      | success s =>
          by_cases hs : s.severity = sev
          · simp [severity_count, spec_severity_count, get_severity, isError,
              List.filter_cons, List.filterMap_cons, hs] at ih ⊢
            omega
          · simp [severity_count, spec_severity_count, get_severity, isError,
              List.filter_cons, List.filterMap_cons, hs] at ih ⊢
            omega

/-- C1: under the default table, _determine_severity implements the
first-match-wins descending threshold scan of the spec, and its severity rank
is non-increasing as similarity increases. -/
theorem severity_policy_matches_table (s t : ℚ) (hst : s ≤ t) :
    determine_severity defaultConfig.severity_levels s = severityTableSpec s ∧
    sevRank (determine_severity defaultConfig.severity_levels t) ≤
      sevRank (determine_severity defaultConfig.severity_levels s) := by
  have e : ∀ u : ℚ, determine_severity defaultConfig.severity_levels u = severityTableSpec u := by
    intro u
    simp [defaultConfig, default_severity_levels, determine_severity, severityTableSpec]
  refine ⟨e s, ?_⟩
  rw [e s, e t]
  unfold severityTableSpec
  split_ifs <;> first | decide | (exfalso; linarith)

/-- Witness for severity_policy_matches_table at similarity 1/2 and 3/4. -/
theorem severity_policy_matches_table_witness :
    determine_severity defaultConfig.severity_levels (1/2) = severityTableSpec (1/2) ∧
    sevRank (determine_severity defaultConfig.severity_levels (3/4)) ≤
      sevRank (determine_severity defaultConfig.severity_levels (1/2)) :=
  severity_policy_matches_table (1/2) (3/4) (by norm_num)

/-- C2 counterexample: with no retained difference region, no
text_rendering_issue finding is produced even though the edge divergence is
10 percent and similarity 1/2 is below the overall threshold — the rule sits
inside the nonempty-regions test of line 166. -/
theorem text_rule_blocked_without_regions :
    (5 : ℚ) < edgeVision.edgeDiffPercentage img1 img1 ∧
    (1 : ℚ)/2 < defaultConfig.threshold ∧
    analyze_differences defaultConfig edgeVision img1 img1 [] (1/2) = [] := by
  refine ⟨by norm_num [edgeVision], by norm_num [defaultConfig], ?_⟩
  unfold analyze_differences
  rw [if_pos (by norm_num [defaultConfig] : (1 : ℚ)/2 < defaultConfig.threshold)]
  rfl

/-- C2 amended: when similarity is below the overall threshold and at least
one difference region is retained, the text_rendering_issue findings are
exactly one fixed-severity-medium finding when the edge divergence exceeds 5
percent, and none otherwise. -/
theorem text_rule_requires_region (cfg : Config) (V : Vision) (ref cur : Img)
    (contours : List Contour) (sim : ℚ)
    (h1 : sim < cfg.threshold) (h2 : contours ≠ []) :
    (analyze_differences cfg V ref cur contours sim).filter
        (fun b => decide (b.type = BugType.text_rendering_issue)) =
      if 5 < V.edgeDiffPercentage ref cur then [text_rendering_bug] else [] := by
  obtain ⟨largest, rest, hsort⟩ :
      ∃ l r, sortRegions (contours.map mkRegion) = l :: r := by
    rcases hs : sortRegions (contours.map mkRegion) with _ | ⟨l, r⟩
    · exfalso
      apply h2
      have hlen := length_sortRegions (contours.map mkRegion)
      rw [hs] at hlen
      simpa using hlen.symm
    · exact ⟨l, r, rfl⟩
  have key : analyze_differences cfg V ref cur contours sim =
      (if largest.area > 10000 then
        [layout_shift_bug (determine_severity cfg.severity_levels sim) largest]
       else []) ++
      (if (largest :: rest).length > 5 then
        [multiple_differences_bug (determine_severity cfg.severity_levels sim)
          (largest :: rest).length]
       else []) ++
      (if 8/10 < sim ∧ (largest :: rest).length < 3 then
        [color_contrast_bug sim]
       else []) ++
      (if detect_text_issues V ref cur then [text_rendering_bug] else []) := by
    unfold analyze_differences
    rw [if_pos h1, hsort]
  rw [key]
  by_cases h5 : 5 < V.edgeDiffPercentage ref cur <;>
    split_ifs <;>
      simp_all [detect_text_issues, List.filter_append, layout_shift_bug,
        multiple_differences_bug, color_contrast_bug, text_rendering_bug] <;>
      linarith

/-- Witness for text_rule_requires_region: one large region, edge divergence
10 percent, similarity 1/2. -/
theorem text_rule_requires_region_witness :
    (analyze_differences defaultConfig edgeVision img1 img1 [bigContour] (1/2)).filter
        (fun b => decide (b.type = BugType.text_rendering_issue)) =
      if (5 : ℚ) < edgeVision.edgeDiffPercentage img1 img1 then [text_rendering_bug] else [] :=
  text_rule_requires_region defaultConfig edgeVision img1 img1 [bigContour] (1/2)
    (by norm_num [defaultConfig]) (by decide)

/-- The sample comparison has similarity 1/2. -/
lemma sampleSuccess_similarity : sampleSuccess.similarity = 1/2 := rfl

/-- The sample comparison grades severity "critical". -/
lemma sampleSuccess_severity : sampleSuccess.severity = "critical" := by
  show determine_severity defaultConfig.severity_levels
    (sampleVision.ssim img1 ((normalize img1 img1).2)) = "critical"
  norm_num [determine_severity, defaultConfig, default_severity_levels, sampleVision]

/-- C3 counterexample: with one successful result of similarity 1/2 and one
errored result, the summary mean differs from the mean over non-errored
results (the error is averaged in as 0), and the errored result is counted
in the "none" severity bucket. -/
theorem aggregates_include_errored :
    avg_similarity cexResults ≠ spec_avg_similarity cexResults ∧
    severity_count cexResults "none" = 1 ∧
    spec_severity_count cexResults "none" = 0 := by
  refine ⟨?_, ?_, ?_⟩
  · norm_num [avg_similarity, spec_avg_similarity, success_similarities, cexResults,
      get_similarity, sampleSuccess_similarity, List.filterMap_cons, List.filterMap_nil]
  · simp [severity_count, cexResults, get_severity, sampleSuccess_severity]
  · simp [spec_severity_count, cexResults, sampleSuccess_severity]

/-- C3 amended: an errored comparison counts toward the total comparison
count, is averaged into mean similarity with the default value 0, and is
counted in the "none" severity bucket; every other bucket counts only
non-errored results. -/
theorem summary_aggregates_amended (results : List CompResult)
    (_h : 0 < (results.filter isError).length) :
    avg_similarity results = (success_similarities results).sum / results.length ∧
    severity_count results "none" =
      spec_severity_count results "none" + (results.filter isError).length ∧
    ∀ sev, sev ≠ "none" → severity_count results sev = spec_severity_count results sev := by
  refine ⟨?_, ?_, ?_⟩
  · unfold avg_similarity
    rw [map_get_similarity_sum]
  · simpa using severity_count_split results "none"
  · intro sev hs
    simpa [hs] using severity_count_split results sev

/-- Witness for summary_aggregates_amended on the concrete mixed list. -/
theorem summary_aggregates_amended_witness :
    avg_similarity cexResults = (success_similarities cexResults).sum / cexResults.length ∧
    severity_count cexResults "critical" = spec_severity_count cexResults "critical" :=
  ⟨(summary_aggregates_amended cexResults (by decide)).1,
   (summary_aggregates_amended cexResults (by decide)).2.2 "critical" (by decide)⟩

/-- C4: when similarity is at least the overall threshold,
_analyze_differences returns no findings, whatever the contours are. -/
theorem classification_gated_by_threshold (cfg : Config) (V : Vision)
    (ref cur : Img) (contours : List Contour) (sim : ℚ)
    (h : cfg.threshold ≤ sim) :
    analyze_differences cfg V ref cur contours sim = [] := by
  unfold analyze_differences
  rw [if_neg (not_lt.mpr h)]

/-- Witness for classification_gated_by_threshold at similarity 24/25. -/
theorem classification_gated_by_threshold_witness :
    analyze_differences defaultConfig contourVision img1 img1 [bigContour] (24/25) = [] :=
  classification_gated_by_threshold defaultConfig contourVision img1 img1
    [bigContour] (24/25) (by norm_num [defaultConfig])

/-- C5: compare_batch returns one result per input pair in input order, and a
pair whose reference file is missing yields an error result in its position. -/
theorem compare_batch_pointwise (cfg : Config) (V : Vision)
    (pairs : List PairSpec) (i : Nat) :
    (compare_batch cfg V pairs).length = pairs.length ∧
    (compare_batch cfg V pairs)[i]? =
      (pairs[i]?).map (fun p => compare_images cfg V p.input p.name) ∧
    ∀ p path, pairs[i]? = some p → p.input = LoadResult.missingRef path →
      (compare_batch cfg V pairs)[i]? =
        some (CompResult.error ("Reference image not found: " ++ path)) := by
  refine ⟨List.length_map _ _, ?_, ?_⟩
  · simp [compare_batch, List.getElem?_map]
  · intro p path hp hin
    simp [compare_batch, List.getElem?_map, hp, hin, compare_images]

/-- Witness for compare_batch_pointwise: the missing-file pair of cexPairs
produces an error result at index 1. -/
theorem compare_batch_pointwise_witness :
    (compare_batch defaultConfig sampleVision cexPairs)[1]? =
      some (CompResult.error ("Reference image not found: " ++ "missing.png")) :=
  (compare_batch_pointwise defaultConfig sampleVision cexPairs 1).2.2
    { input := LoadResult.missingRef "missing.png", name := "b" } "missing.png" rfl rfl

/-- C6: every successful comparison result satisfies
bugs_found = (bugs is nonempty), and its severity field is the severity
policy applied to its similarity score. -/
theorem result_bug_invariants (cfg : Config) (V : Vision) (ref cur : Img)
    (name : String) (r : CompSuccess)
    (h : compare_images cfg V (.ok ref cur) name = .success r) :
    (r.bugs_found = true ↔ r.bugs ≠ []) ∧
    r.severity = determine_severity cfg.severity_levels r.similarity := by
  injection h with h
  subst h
  exact ⟨decide_length_pos _, rfl⟩

/-- Witness for result_bug_invariants on the contourVision comparison. -/
theorem result_bug_invariants_witness :
    (contourSuccess.bugs_found = true ↔ contourSuccess.bugs ≠ []) ∧
    contourSuccess.severity =
      determine_severity defaultConfig.severity_levels contourSuccess.similarity :=
  result_bug_invariants defaultConfig contourVision img1 img1 "t2" contourSuccess rfl

/-- C7: contour filtering retains exactly the contours whose area strictly
exceeds min_area, and raising min_area never increases the retained count. -/
theorem region_filter_monotone (m1 m2 : ℚ) (cs : List Contour) (c : Contour)
    (h : m1 ≤ m2) :
    (c ∈ significant_contours m1 cs ↔ c ∈ cs ∧ m1 < c.area) ∧
    (significant_contours m2 cs).length ≤ (significant_contours m1 cs).length := by
  constructor
  · simp [significant_contours, List.mem_filter]
  · apply List.Sublist.length_le
    apply List.monotone_filter_right
    intro a ha
    simp only [decide_eq_true_eq] at ha ⊢
    exact lt_of_le_of_lt h ha

/-- Witness for region_filter_monotone at min areas 100 and 20000. -/
theorem region_filter_monotone_witness :
    (bigContour ∈ significant_contours 100 [bigContour, smallContour] ↔
      bigContour ∈ [bigContour, smallContour] ∧ (100 : ℚ) < bigContour.area) ∧
    (significant_contours 20000 [bigContour, smallContour]).length ≤
      (significant_contours 100 [bigContour, smallContour]).length :=
  region_filter_monotone 100 20000 [bigContour, smallContour] bigContour (by norm_num)

/-- C8: the reference image is never resized, the current image is resampled
to the reference dimensions when the shapes differ, and the successful result
reports both images' original pre-resize dimensions. -/
theorem resize_and_dimension_reporting (cfg : Config) (V : Vision)
    (ref cur : Img) (name : String) (r : CompSuccess)
    (h : compare_images cfg V (.ok ref cur) name = .success r) :
    (normalize ref cur).1 = ref ∧
    (shape ref ≠ shape cur → (normalize ref cur).2 = resize cur ref.width ref.height) ∧
    r.ref_width = ref.width ∧ r.ref_height = ref.height ∧
    r.cur_width = cur.width ∧ r.cur_height = cur.height := by
  injection h with h
  subst h
  refine ⟨?_, ?_, rfl, rfl, rfl, rfl⟩
  · unfold normalize
    split <;> rfl
  · intro hne
    unfold normalize
    rw [if_pos hne]

/-- Witness for resize_and_dimension_reporting on the shape-mismatched pair
img1 and img2. -/
theorem resize_and_dimension_reporting_witness :
    (normalize img1 img2).1 = img1 ∧
    (normalize img1 img2).2 = resize img2 img1.width img1.height ∧
    resizeSuccess.ref_width = img1.width ∧ resizeSuccess.ref_height = img1.height ∧
    resizeSuccess.cur_width = img2.width ∧ resizeSuccess.cur_height = img2.height := by
  have t := resize_and_dimension_reporting defaultConfig sampleVision img1 img2 "t3"
    resizeSuccess rfl
  exact ⟨t.1, t.2.1 (by decide), t.2.2.1, t.2.2.2.1, t.2.2.2.2.1, t.2.2.2.2.2⟩

/-- C9: in any successful comparison, each layout_shift or
multiple_differences finding carries exactly the result's top-level severity,
while color_contrast_issue is fixed "low" and text_rendering_issue fixed
"medium". -/
theorem finding_severity_alignment (cfg : Config) (V : Vision) (ref cur : Img)
    (name : String) (r : CompSuccess) (b : Bug)
    (h : compare_images cfg V (.ok ref cur) name = .success r)
    (hb : b ∈ r.bugs) :
    ((b.type = BugType.layout_shift ∨ b.type = BugType.multiple_differences) →
        b.severity = r.severity) ∧
    (b.type = BugType.color_contrast_issue → b.severity = "low") ∧
    (b.type = BugType.text_rendering_issue → b.severity = "medium") := by
  injection h with h
  subst h
  exact analyze_severities cfg V ref ((normalize ref cur).2)
    (significant_contours cfg.min_contour_area
      (V.findContours ref ((normalize ref cur).2)))
    (V.ssim ref ((normalize ref cur).2)) b hb

/-- The contourVision comparison produces exactly one finding: a layout
shift at the policy severity "critical". -/
lemma contourSuccess_bugs :
    contourSuccess.bugs = [layout_shift_bug "critical" (mkRegion bigContour)] := by
  show analyze_differences defaultConfig contourVision img1 ((normalize img1 img1).2)
      (significant_contours defaultConfig.min_contour_area
        (contourVision.findContours img1 ((normalize img1 img1).2)))
      (contourVision.ssim img1 ((normalize img1 img1).2)) = _
  norm_num [analyze_differences, significant_contours, contourVision, normalize, shape,
    sortRegions, insertReg, mkRegion, detect_text_issues, defaultConfig,
    determine_severity, default_severity_levels, bigContour, smallContour,
    layout_shift_bug, img1]

/-- Witness for finding_severity_alignment on the layout_shift finding of the
contourVision comparison. -/
theorem finding_severity_alignment_witness :
    (layout_shift_bug "critical" (mkRegion bigContour)).severity = contourSuccess.severity :=
  (finding_severity_alignment defaultConfig contourVision img1 img1 "t2" contourSuccess
      (layout_shift_bug "critical" (mkRegion bigContour)) rfl
      (by rw [contourSuccess_bugs]; exact List.mem_singleton_self _)).1 (Or.inl rfl)

/-- C10: in every successful comparison the count of retained significant
contours never exceeds the count of raw contours. -/
theorem significant_le_total (cfg : Config) (V : Vision) (ref cur : Img)
    (name : String) (r : CompSuccess)
    (h : compare_images cfg V (.ok ref cur) name = .success r) :
    r.contours_count ≤ r.total_contours := by
  injection h with h
  subst h
  exact List.length_filter_le _ _

/-- Witness for significant_le_total: one of two contours is retained. -/
theorem significant_le_total_witness :
    contourSuccess.contours_count ≤ contourSuccess.total_contours :=
  significant_le_total defaultConfig contourVision img1 img1 "t2" contourSuccess rfl

end GenericBugDetector
